import Mathlib

/-!
Verification development for the Audit-Table transaction service
(`src/repository/repo/transaction_repo.py`, `src/service/transaction_service.py`,
`src/repository/model/transaction_model.py`, `src/repository/schema/*.py`).

The store is modelled as a list of records plus a next-identity counter; the
SQLAlchemy session and commit/rollback machinery collapse to pure state
passing (an operation returns the new store on success; a raised
`HTTPException` becomes `Except.error` carrying the status code and detail,
and by construction leaves the store as it was, matching the rollback-free
error paths of the source).  `datetime.now(pytz.timezone('Asia/Colombo'))`
is modelled by an explicit `Clock` argument holding the civil date and time
of that instant in the fixed UTC+5:30 timezone; the storage-fault
(`SQLAlchemyError`) branches are outside the model, i.e. the model is the
fault-free execution of each operation.  Python floats for `amount` are
modelled as rationals; `str.strip()` is `pyStrip`; `try/except HTTPException:
raise` around the service bodies is error propagation in `Except`.
-/

namespace AuditTable

/-- The civil date and time of the current instant in the fixed
Asia/Colombo (UTC+5:30) timezone, as produced by
`datetime.now(pytz.timezone('Asia/Colombo'))`; the two components are kept
abstract. -/
structure Clock where
  date : Nat
  time : Nat
deriving Repr, DecidableEq

/-- Model of `TransactionModel` (src/repository/model/transaction_model.py): the
stored record.  The source's `create` constructs the row without assigning
`user_id`, so the field is an `Option` here even though the column is
declared `nullable=False`; an unassigned attribute is `none`. -/
structure TransactionModel where
  id : Nat
  user_id : Option String
  reference_number : String
  payment_method : String
  amount : Rat
  date : Nat
  time : Nat
deriving Repr, DecidableEq

/-- Model of `TransactionModelCreate` (src/repository/schema/transaction_create.py):
the request body for create and update. It has no date or time fields. -/
structure TransactionModelCreate where
  user_id : String
  reference_number : String
  payment_method : String
  amount : Rat
deriving Repr, DecidableEq

/-- Model of `TransactionResponse` (src/repository/schema/transaction_response.py):
the public response shape; `user_id` is not exposed. -/
structure TransactionResponse where
  id : Nat
  reference_number : String
  date : Nat
  time : Nat
  payment_method : String
  amount : Rat
deriving Repr, DecidableEq

/-- A raised `fastapi.HTTPException`: status code and detail message. -/
structure Err where
  status : Nat
  detail : String
deriving Repr, DecidableEq

/-- The persistent store: the `transactions` table as a list in insertion
order (`first()` returns the earliest match), plus the next value of the
autoincrement primary key. -/
structure DB where
  records : List TransactionModel
  nextId : Nat
deriving Repr, DecidableEq

/-- The store after an operation: the new store on success, the unchanged
store when the operation raised (the source raises before mutating, or
rolls back). -/
def postDB {α : Type} (db : DB) (r : Except Err (α × DB)) : DB :=
  match r with
  | .ok (_, db') => db'
  | .error _ => db

/-- Python `str.isspace()` for a single character: the whitespace set that
`str.strip()` removes — tab, LF, VT (\x0b), FF (\x0c), CR, the file, group,
record and unit separators (\x1c-\x1f), space, NEL (\x85), NBSP (\xa0), and
the Unicode space characters (U+1680, U+2000-U+200A, U+2028, U+2029,
U+202F, U+205F, U+3000). -/
def pyIsSpace (c : Char) : Bool :=
  c.toNat == 0x09 || c.toNat == 0x0A || c.toNat == 0x0B || c.toNat == 0x0C ||
  c.toNat == 0x0D || c.toNat == 0x1C || c.toNat == 0x1D || c.toNat == 0x1E ||
  c.toNat == 0x1F || c.toNat == 0x20 || c.toNat == 0x85 || c.toNat == 0xA0 ||
  c.toNat == 0x1680 || c.toNat == 0x2000 || c.toNat == 0x2001 ||
  c.toNat == 0x2002 || c.toNat == 0x2003 || c.toNat == 0x2004 ||
  c.toNat == 0x2005 || c.toNat == 0x2006 || c.toNat == 0x2007 ||
  c.toNat == 0x2008 || c.toNat == 0x2009 || c.toNat == 0x200A ||
  c.toNat == 0x2028 || c.toNat == 0x2029 || c.toNat == 0x202F ||
  c.toNat == 0x205F || c.toNat == 0x3000

/-- Python `str.strip()`: the string with leading and trailing Python
whitespace removed. -/
def pyStrip (s : String) : String :=
  ⟨((s.data.dropWhile pyIsSpace).reverse.dropWhile pyIsSpace).reverse⟩

/-- Replace the first record whose `reference_number` equals `ref` by `u`,
modelling SQLAlchemy attribute assignment on the object returned by
`first()` followed by `commit()`. -/
def replaceFirst (ref : String) (u : TransactionModel) :
    List TransactionModel → List TransactionModel
  | [] => []
  | r :: rs =>
    if r.reference_number == ref then u :: rs
    else r :: replaceFirst ref u rs

namespace TransactionRepository

/-- Model of `TransactionRepository.create` (transaction_repo.py, lines 40-85):
rejects a duplicate `reference_number` with 400, otherwise stamps the
current Sri Lankan date and time, persists a new row (without `user_id`)
and returns it with its assigned identity. -/
def create (db : DB) (transaction_create : TransactionModelCreate)
    (now : Clock) : Except Err (TransactionModel × DB) :=
  match db.records.find?
      (fun r => r.reference_number == transaction_create.reference_number) with
  | some _ => .error ⟨400, "Reference number already exists"⟩
  | none =>
    let transaction : TransactionModel :=
      { id := db.nextId
        user_id := none
        reference_number := transaction_create.reference_number
        payment_method := transaction_create.payment_method
        amount := transaction_create.amount
        date := now.date
        time := now.time }
    .ok (transaction,
      { records := db.records ++ [transaction], nextId := db.nextId + 1 })

/-- Model of `TransactionRepository.get_by_id` (lines 87-110): the matching record,
or `none` when absent (absence is not an error at this layer). -/
def get_by_id (db : DB) (transaction_id : Int) : Option TransactionModel :=
  db.records.find? (fun r => (r.id : Int) == transaction_id)

/-- Model of `TransactionRepository.get_by_reference_number` (lines 112-135): the
matching record, or `none` when absent. -/
def get_by_reference_number (db : DB) (reference_number : String) :
    Option TransactionModel :=
  db.records.find? (fun r => r.reference_number == reference_number)

/-- Model of `TransactionRepository.update_by_reference_number` (lines 137-191):
404 when no record has the path reference number; when the body's
reference number differs from the path's, 400 if any record already holds
it; otherwise overwrites the record's fields and re-stamps date and time. -/
def update_by_reference_number (db : DB) (reference_number : String)
    (transaction_update : TransactionModelCreate) (now : Clock) :
    Except Err (TransactionModel × DB) :=
  match db.records.find? (fun r => r.reference_number == reference_number) with
  | none => .error ⟨404, "Transaction not found"⟩
  | some transaction =>
    let updated : TransactionModel :=
      { transaction with
        reference_number := transaction_update.reference_number
        payment_method := transaction_update.payment_method
        amount := transaction_update.amount
        date := now.date
        time := now.time }
    let db' : DB :=
      { db with records := replaceFirst reference_number updated db.records }
    if transaction_update.reference_number ≠ reference_number then
      match db.records.find?
          (fun r => r.reference_number == transaction_update.reference_number) with
      | some _ => .error ⟨400, "New reference number already exists"⟩
      | none => .ok (updated, db')
    else .ok (updated, db')

/-- Model of `TransactionRepository.delete_by_reference_number` (lines 193-222):
404 when no record matches; otherwise deletes the record and returns
`True`. -/
def delete_by_reference_number (db : DB) (reference_number : String) :
    Except Err (Bool × DB) :=
  match db.records.find? (fun r => r.reference_number == reference_number) with
  | none => .error ⟨404, "Transaction not found"⟩
  | some _ =>
    .ok (true,
      { db with
        records :=
          db.records.eraseP (fun r => r.reference_number == reference_number) })

end TransactionRepository

namespace TransactionService

/-- Model of `TransactionResponse.model_validate` on a stored record: copies the
public fields; `user_id` is dropped. -/
def toResponse (t : TransactionModel) : TransactionResponse :=
  { id := t.id
    reference_number := t.reference_number
    date := t.date
    time := t.time
    payment_method := t.payment_method
    amount := t.amount }

/-- Model of `TransactionService._validate_transaction_create` (transaction_service.py,
lines 208-227): blank reference number, then blank payment method, then
non-positive amount, each a 400.  Python `not s or not s.strip()` is
`s = "" ∨ pyStrip s = ""`. -/
def validate_transaction_create (tc : TransactionModelCreate) :
    Except Err Unit :=
  if tc.reference_number = "" ∨ pyStrip tc.reference_number = "" then
    .error ⟨400, "Reference number is required"⟩
  else if tc.payment_method = "" ∨ pyStrip tc.payment_method = "" then
    .error ⟨400, "Payment method is required"⟩
  else if tc.amount ≤ 0 then
    .error ⟨400, "Amount must be greater than zero"⟩
  else .ok ()

/-- Model of `TransactionService._validate_transaction_id` (lines 229-239): the
`isinstance` check is the Lean type; a non-positive id is a 400. -/
def validate_transaction_id (transaction_id : Int) : Except Err Unit :=
  if transaction_id ≤ 0 then .error ⟨400, "Invalid transaction ID"⟩
  else .ok ()

/-- Model of `TransactionService._validate_reference_number` (lines 241-251). -/
def validate_reference_number (reference_number : String) : Except Err Unit :=
  if reference_number = "" ∨ pyStrip reference_number = "" then
    .error ⟨400, "Reference number is required"⟩
  else .ok ()

/-- Model of `TransactionService.create_transaction` (lines 40-70): validate, then
delegate to the repository, then convert to the response shape; raised
`HTTPException`s propagate unchanged. -/
def create_transaction (db : DB) (transaction_create : TransactionModelCreate)
    (now : Clock) : Except Err (TransactionResponse × DB) :=
  match validate_transaction_create transaction_create with
  | .error e => .error e
  | .ok _ =>
    match TransactionRepository.create db transaction_create now with
    | .error e => .error e
    | .ok (t, db') => .ok (toResponse t, db')

/-- Model of `TransactionService.get_transaction_by_id` (lines 72-105): validate the
id, delegate, and map a `None` repository result to a 404. -/
def get_transaction_by_id (db : DB) (transaction_id : Int) :
    Except Err TransactionResponse :=
  match validate_transaction_id transaction_id with
  | .error e => .error e
  | .ok _ =>
    match TransactionRepository.get_by_id db transaction_id with
    | none => .error ⟨404, "Transaction not found"⟩
    | some t => .ok (toResponse t)

/-- Model of `TransactionService.get_transaction_by_reference_number`
(lines 107-140). -/
def get_transaction_by_reference_number (db : DB)
    (reference_number : String) : Except Err TransactionResponse :=
  match validate_reference_number reference_number with
  | .error e => .error e
  | .ok _ =>
    match TransactionRepository.get_by_reference_number db reference_number with
    | none => .error ⟨404, "Transaction not found"⟩
    | some t => .ok (toResponse t)

/-- Model of `TransactionService.update_transaction_by_reference_number`
(lines 142-174): validate the path reference number and the body, then
delegate. -/
def update_transaction_by_reference_number (db : DB)
    (reference_number : String) (transaction_update : TransactionModelCreate)
    (now : Clock) : Except Err (TransactionResponse × DB) :=
  match validate_reference_number reference_number with
  | .error e => .error e
  | .ok _ =>
    match validate_transaction_create transaction_update with
    | .error e => .error e
    | .ok _ =>
      match TransactionRepository.update_by_reference_number db
          reference_number transaction_update now with
      | .error e => .error e
      | .ok (t, db') => .ok (toResponse t, db')

/-- Model of `TransactionService.delete_transaction_by_reference_number`
(lines 176-206): validate, delegate; a truthy repository result yields the
success message, a falsy one a 500. -/
def delete_transaction_by_reference_number (db : DB)
    (reference_number : String) : Except Err (String × DB) :=
  match validate_reference_number reference_number with
  | .error e => .error e
  | .ok _ =>
    match TransactionRepository.delete_by_reference_number db
        reference_number with
    | .error e => .error e
    | .ok (success, db') =>
      if success then
        .ok ("Transaction with reference number " ++ reference_number ++
          " deleted successfully", db')
      else .error ⟨500, "Failed to delete transaction"⟩

end TransactionService

/-- A sequentially executed service operation. -/
inductive Op where
  | create (tc : TransactionModelCreate)
  | getById (transaction_id : Int)
  | getByRef (reference_number : String)
  | update (reference_number : String) (tu : TransactionModelCreate)
  | delete (reference_number : String)

/-- The store after a service operation (unchanged when the operation
raised, the returned store on success; the read operations never write). -/
def runOp (db : DB) (now : Clock) : Op → DB
  | .create tc => postDB db (TransactionService.create_transaction db tc now)
  | .getById _ => db
  | .getByRef _ => db
  | .update ref tu =>
    postDB db
      (TransactionService.update_transaction_by_reference_number db ref tu now)
  | .delete ref =>
    postDB db (TransactionService.delete_transaction_by_reference_number db ref)

/-- Reference numbers of stored records are pairwise distinct. -/
def RefsDistinct (db : DB) : Prop :=
  (db.records.map (fun r => r.reference_number)).Nodup

/-- Every stored amount is strictly positive. -/
def AmountsPos (db : DB) : Prop :=
  ∀ r ∈ db.records, 0 < r.amount

/-- The two store invariants of the spec, together. -/
def Invariant (db : DB) : Prop :=
  RefsDistinct db ∧ AmountsPos db

/-! ### Basic lemmas about the embedding -/

theorem pyStrip_empty : pyStrip "" = "" := rfl

theorem postDB_error {α : Type} (db : DB) (r : Except Err (α × DB)) (e : Err)
    (h : r = .error e) : postDB db r = db := by
  rw [h]; rfl

theorem find?_ref_eq_none {l : List TransactionModel} {s : String}
    (h : ∀ r ∈ l, r.reference_number ≠ s) :
    l.find? (fun r => r.reference_number == s) = none := by
  rw [List.find?_eq_none]
  intro r hr
  simpa using h r hr

theorem find?_ref_isSome {l : List TransactionModel} {s : String}
    (h : ∃ r ∈ l, r.reference_number = s) :
    (l.find? (fun r => r.reference_number == s)).isSome := by
  rw [List.find?_isSome]
  obtain ⟨r, hr, hrs⟩ := h
  exact ⟨r, hr, by simpa using hrs⟩

theorem amount_pos_of_validate_ok {tc : TransactionModelCreate}
    (h : TransactionService.validate_transaction_create tc = .ok ()) :
    0 < tc.amount := by
  unfold TransactionService.validate_transaction_create at h
  split at h
  · simp at h
  · split at h
    · simp at h
    · split at h
      · simp at h
      · rename_i hamt
        exact not_le.mp hamt

theorem validate_create_ok (tc : TransactionModelCreate)
    (h1 : pyStrip tc.reference_number ≠ "")
    (h2 : pyStrip tc.payment_method ≠ "")
    (h3 : 0 < tc.amount) :
    TransactionService.validate_transaction_create tc = .ok () := by
  have h1' : ¬(tc.reference_number = "" ∨ pyStrip tc.reference_number = "") := by
    rintro (h | h)
    · exact h1 (by rw [h]; rfl)
    · exact h1 h
  have h2' : ¬(tc.payment_method = "" ∨ pyStrip tc.payment_method = "") := by
    rintro (h | h)
    · exact h2 (by rw [h]; rfl)
    · exact h2 h
  unfold TransactionService.validate_transaction_create
  rw [if_neg h1', if_neg h2', if_neg (not_le.mpr h3)]

theorem validate_create_amount_error (tc : TransactionModelCreate)
    (h1 : pyStrip tc.reference_number ≠ "")
    (h2 : pyStrip tc.payment_method ≠ "")
    (h3 : tc.amount ≤ 0) :
    TransactionService.validate_transaction_create tc =
      .error ⟨400, "Amount must be greater than zero"⟩ := by
  have h1' : ¬(tc.reference_number = "" ∨ pyStrip tc.reference_number = "") := by
    rintro (h | h)
    · exact h1 (by rw [h]; rfl)
    · exact h1 h
  have h2' : ¬(tc.payment_method = "" ∨ pyStrip tc.payment_method = "") := by
    rintro (h | h)
    · exact h2 (by rw [h]; rfl)
    · exact h2 h
  unfold TransactionService.validate_transaction_create
  rw [if_neg h1', if_neg h2', if_pos h3]

theorem validate_create_blank (tc : TransactionModelCreate)
    (h : pyStrip tc.reference_number = "" ∨ pyStrip tc.payment_method = "") :
    ∃ d, TransactionService.validate_transaction_create tc =
      .error ⟨400, d⟩ := by
  unfold TransactionService.validate_transaction_create
  by_cases h1 : tc.reference_number = "" ∨ pyStrip tc.reference_number = ""
  · exact ⟨_, if_pos h1⟩
  · rw [if_neg h1]
    have h2 : tc.payment_method = "" ∨ pyStrip tc.payment_method = "" := by
      rcases h with h | h
      · exact absurd (Or.inr h) h1
      · exact Or.inr h
    exact ⟨_, if_pos h2⟩

theorem validate_ref_ok (ref : String) (h : pyStrip ref ≠ "") :
    TransactionService.validate_reference_number ref = .ok () := by
  unfold TransactionService.validate_reference_number
  rw [if_neg]
  rintro (h' | h')
  · exact h (by rw [h']; rfl)
  · exact h h'

theorem mem_replaceFirst {ref : String} {u x : TransactionModel}
    {l : List TransactionModel} (hx : x ∈ replaceFirst ref u l) :
    x ∈ l ∨ x = u := by
  induction l with
  | nil => cases hx
  | cons a t ih =>
    simp only [replaceFirst] at hx
    by_cases ha : (a.reference_number == ref) = true
    · rw [if_pos ha] at hx
      rcases List.mem_cons.mp hx with hx | hx
      · exact Or.inr hx
      · exact Or.inl (List.mem_cons_of_mem a hx)
    · rw [if_neg ha] at hx
      rcases List.mem_cons.mp hx with hx | hx
      · exact Or.inl (hx ▸ List.mem_cons_self a t)
      · rcases ih hx with h | h
        · exact Or.inl (List.mem_cons_of_mem a h)
        · exact Or.inr h

theorem replaceFirst_map_ref_same {ref : String} {u : TransactionModel}
    (l : List TransactionModel) (h : u.reference_number = ref) :
    (replaceFirst ref u l).map (fun r => r.reference_number) =
      l.map (fun r => r.reference_number) := by
  induction l with
  | nil => rfl
  | cons a t ih =>
    simp only [replaceFirst]
    by_cases ha : (a.reference_number == ref) = true
    · rw [if_pos ha, List.map_cons, List.map_cons, h, beq_iff_eq.mp ha]
    · rw [if_neg ha, List.map_cons, List.map_cons, ih]

theorem replaceFirst_nodup {ref : String} {u : TransactionModel}
    {l : List TransactionModel}
    (hnd : (l.map (fun r => r.reference_number)).Nodup)
    (hfresh : ∀ r ∈ l, r.reference_number ≠ u.reference_number) :
    ((replaceFirst ref u l).map (fun r => r.reference_number)).Nodup := by
  induction l with
  | nil => exact hnd
  | cons a t ih =>
    rw [List.map_cons, List.nodup_cons] at hnd
    simp only [replaceFirst]
    by_cases ha : (a.reference_number == ref) = true
    · rw [if_pos ha, List.map_cons, List.nodup_cons]
      refine ⟨?_, hnd.2⟩
      rw [List.mem_map]
      rintro ⟨r, hr, hre⟩
      exact hfresh r (List.mem_cons_of_mem a hr) hre
    · rw [if_neg ha, List.map_cons, List.nodup_cons]
      refine ⟨?_, ih hnd.2 (fun r hr => hfresh r (List.mem_cons_of_mem a hr))⟩
      rw [List.mem_map]
      rintro ⟨r, hr, hre⟩
      rcases mem_replaceFirst hr with h | h
      · exact hnd.1 (List.mem_map.mpr ⟨r, h, hre⟩)
      · exact hfresh a (List.mem_cons_self a t) (by rw [← hre, h])

theorem find?_eraseP_ref (l : List TransactionModel) (ref : String)
    (hnd : (l.map (fun r => r.reference_number)).Nodup) :
    (l.eraseP (fun r => r.reference_number == ref)).find?
      (fun r => r.reference_number == ref) = none := by
  induction l with
  | nil => rfl
  | cons a t ih =>
    rw [List.map_cons, List.nodup_cons] at hnd
    by_cases ha : a.reference_number = ref
    · rw [List.eraseP_cons_of_pos (by simpa using ha)]
      rw [find?_ref_eq_none]
      intro r hr hre
      exact hnd.1 (List.mem_map.mpr ⟨r, hr, by rw [hre, ha]⟩)
    · rw [List.eraseP_cons_of_neg (by simpa using ha)]
      rw [List.find?_cons_of_neg _ (by simpa using ha)]
      exact ih hnd.2

/-! ### Claim theorems -/

/-- Claim C1: a create input whose reference number is fresh and whose
fields pass service validation succeeds (in the fault-free model) and
returns a record whose identity is the system-assigned next id and whose
date and time are the server clock's stamp in the fixed UTC+5:30 timezone
(the input schema carries no date or time, so client values are never
echoed); the stored row is appended without a `user_id`. -/
theorem C1_create_fresh_succeeds (db : DB) (tc : TransactionModelCreate)
    (now : Clock)
    (hfresh : ∀ r ∈ db.records, r.reference_number ≠ tc.reference_number)
    (hvalid : TransactionService.validate_transaction_create tc = .ok ()) :
    ∃ t : TransactionModel,
      TransactionService.create_transaction db tc now =
        .ok (TransactionService.toResponse t,
          { records := db.records ++ [t], nextId := db.nextId + 1 }) ∧
      t.id = db.nextId ∧ t.date = now.date ∧ t.time = now.time ∧
      t.reference_number = tc.reference_number ∧
      t.payment_method = tc.payment_method ∧ t.amount = tc.amount ∧
      t.user_id = none := by
  refine ⟨⟨db.nextId, none, tc.reference_number, tc.payment_method,
    tc.amount, now.date, now.time⟩, ?_, rfl, rfl, rfl, rfl, rfl, rfl, rfl⟩
  unfold TransactionService.create_transaction
  rw [hvalid]
  unfold TransactionRepository.create
  rw [find?_ref_eq_none hfresh]

/-- Witness for C1 at a concrete fresh input. -/
theorem C1_witness :
    ∃ t : TransactionModel,
      TransactionService.create_transaction ⟨[], 1⟩
          ⟨"u1", "TX-1", "card", 10⟩ ⟨20250101, 930⟩ =
        .ok (TransactionService.toResponse t, { records := [] ++ [t], nextId := 1 + 1 }) ∧
      t.id = 1 ∧ t.date = 20250101 ∧ t.time = 930 ∧
      t.reference_number = "TX-1" ∧ t.payment_method = "card" ∧
      t.amount = 10 ∧ t.user_id = none :=
  C1_create_fresh_succeeds ⟨[], 1⟩ ⟨"u1", "TX-1", "card", 10⟩ ⟨20250101, 930⟩
    (by intro r hr; cases hr) rfl

/-- Claim C2: starting from a store whose reference numbers are pairwise
distinct and whose amounts are all positive, every sequentially executed
service operation (create, get by id, get by reference, update by
reference, delete by reference) preserves both invariants. -/
theorem C2_invariants_preserved (db : DB) (now : Clock) (op : Op)
    (hinv : Invariant db) : Invariant (runOp db now op) := by
  obtain ⟨hnd, hpos⟩ := hinv
  cases op with
  | getById i => exact ⟨hnd, hpos⟩
  | getByRef s => exact ⟨hnd, hpos⟩
  | create tc =>
    show Invariant (postDB db (TransactionService.create_transaction db tc now))
    cases hval : TransactionService.validate_transaction_create tc with
    | error e =>
      simp only [TransactionService.create_transaction, hval, postDB]
      exact ⟨hnd, hpos⟩
    | ok u =>
      cases hfind : db.records.find?
          (fun r => r.reference_number == tc.reference_number) with
      | some r =>
        simp only [TransactionService.create_transaction,
          TransactionRepository.create, hval, hfind, postDB]
        exact ⟨hnd, hpos⟩
      | none =>
        simp only [TransactionService.create_transaction,
          TransactionRepository.create, hval, hfind, postDB]
        have hfresh : ∀ r ∈ db.records,
            r.reference_number ≠ tc.reference_number := by
          intro r hr
          simpa using List.find?_eq_none.mp hfind r hr
        constructor
        · show (List.map (fun r => r.reference_number)
            (db.records ++ [_])).Nodup
          rw [List.map_append, List.nodup_append_comm]
          rw [List.map_singleton, List.singleton_append, List.nodup_cons]
          refine ⟨?_, hnd⟩
          rw [List.mem_map]
          rintro ⟨r, hr, hre⟩
          exact hfresh r hr hre
        · intro r hr
          rcases List.mem_append.mp hr with h | h
          · exact hpos r h
          · rw [List.mem_singleton] at h
            subst h
            exact amount_pos_of_validate_ok hval
  | update ref tu =>
    show Invariant (postDB db
      (TransactionService.update_transaction_by_reference_number db ref tu now))
    cases hvref : TransactionService.validate_reference_number ref with
    | error e =>
      simp only [TransactionService.update_transaction_by_reference_number,
        hvref, postDB]
      exact ⟨hnd, hpos⟩
    | ok u =>
      cases hval : TransactionService.validate_transaction_create tu with
      | error e =>
        simp only [TransactionService.update_transaction_by_reference_number,
          hvref, hval, postDB]
        exact ⟨hnd, hpos⟩
      | ok u' =>
        cases hfind : db.records.find?
            (fun r => r.reference_number == ref) with
        | none =>
          simp only [TransactionService.update_transaction_by_reference_number,
            TransactionRepository.update_by_reference_number, hvref, hval,
            hfind, postDB]
          exact ⟨hnd, hpos⟩
        | some t0 =>
          by_cases hne : tu.reference_number ≠ ref
          · cases hfind2 : db.records.find?
                (fun r => r.reference_number == tu.reference_number) with
            | some r2 =>
              simp only [TransactionService.update_transaction_by_reference_number,
                TransactionRepository.update_by_reference_number, hvref, hval,
                hfind, if_pos hne, hfind2, postDB]
              exact ⟨hnd, hpos⟩
            | none =>
              simp only [TransactionService.update_transaction_by_reference_number,
                TransactionRepository.update_by_reference_number, hvref, hval,
                hfind, if_pos hne, hfind2, postDB]
              have hfresh : ∀ r ∈ db.records,
                  r.reference_number ≠ tu.reference_number := by
                intro r hr
                simpa using List.find?_eq_none.mp hfind2 r hr
              constructor
              · exact replaceFirst_nodup hnd hfresh
              · intro r hr
                rcases mem_replaceFirst hr with h | h
                · exact hpos r h
                · subst h
                  exact amount_pos_of_validate_ok hval
          · rw [not_not] at hne
            have hnn : ¬(tu.reference_number ≠ ref) := fun h => h hne
            simp only [TransactionService.update_transaction_by_reference_number,
              TransactionRepository.update_by_reference_number, hvref, hval,
              hfind, if_neg hnn, postDB]
            constructor
            · show RefsDistinct ⟨replaceFirst ref _ db.records, db.nextId⟩
              unfold RefsDistinct
              rw [replaceFirst_map_ref_same db.records hne]
              exact hnd
            · intro r hr
              rcases mem_replaceFirst hr with h | h
              · exact hpos r h
              · subst h
                exact amount_pos_of_validate_ok hval
  | delete ref =>
    show Invariant (postDB db
      (TransactionService.delete_transaction_by_reference_number db ref))
    cases hvref : TransactionService.validate_reference_number ref with
    | error e =>
      simp only [TransactionService.delete_transaction_by_reference_number,
        hvref, postDB]
      exact ⟨hnd, hpos⟩
    | ok u =>
      cases hfind : db.records.find?
          (fun r => r.reference_number == ref) with
      | none =>
        simp only [TransactionService.delete_transaction_by_reference_number,
          TransactionRepository.delete_by_reference_number, hvref, hfind,
          postDB]
        exact ⟨hnd, hpos⟩
      | some t0 =>
        simp only [TransactionService.delete_transaction_by_reference_number,
          TransactionRepository.delete_by_reference_number, hvref, hfind,
          postDB, if_pos]
        have hsub := List.eraseP_sublist (p := fun r => r.reference_number == ref)
          db.records
        constructor
        · exact List.Nodup.sublist (hsub.map (fun r => r.reference_number)) hnd
        · intro r hr
          exact hpos r (hsub.mem hr)

/-- Witness for C2: the invariants hold of the empty store and still hold
after a concrete service create. -/
theorem C2_witness :
    Invariant ⟨[], 1⟩ ∧
    Invariant (runOp ⟨[], 1⟩ ⟨20250101, 930⟩
      (.create ⟨"u1", "TX-1", "card", 10⟩)) :=
  ⟨⟨List.nodup_nil, fun r hr => absurd hr (List.not_mem_nil r)⟩,
   C2_invariants_preserved ⟨[], 1⟩ ⟨20250101, 930⟩
     (.create ⟨"u1", "TX-1", "card", 10⟩)
     ⟨List.nodup_nil, fun r hr => absurd hr (List.not_mem_nil r)⟩⟩

/-- Claim C3: a create input whose reference number equals that of a
stored record (case-sensitive string equality) fails with 400
"Reference number already exists", whatever the other fields hold, and
the store is left unchanged. -/
theorem C3_create_duplicate_conflict (db : DB) (tc : TransactionModelCreate)
    (now : Clock)
    (hdup : ∃ r ∈ db.records, r.reference_number = tc.reference_number) :
    TransactionRepository.create db tc now =
      .error ⟨400, "Reference number already exists"⟩ ∧
    postDB db (TransactionRepository.create db tc now) = db := by
  obtain ⟨a, ha⟩ := Option.isSome_iff_exists.mp (find?_ref_isSome hdup)
  have hmain : TransactionRepository.create db tc now =
      .error ⟨400, "Reference number already exists"⟩ := by
    unfold TransactionRepository.create
    rw [ha]
  exact ⟨hmain, postDB_error db _ _ hmain⟩

/-- Witness for C3: a duplicate of an existing reference number. -/
theorem C3_witness :
    TransactionRepository.create
        ⟨[⟨1, none, "TX-1", "card", 10, 20250101, 930⟩], 2⟩
        ⟨"u2", "TX-1", "cash", 7⟩ ⟨20250102, 1015⟩ =
      .error ⟨400, "Reference number already exists"⟩ ∧
    postDB ⟨[⟨1, none, "TX-1", "card", 10, 20250101, 930⟩], 2⟩
        (TransactionRepository.create
          ⟨[⟨1, none, "TX-1", "card", 10, 20250101, 930⟩], 2⟩
          ⟨"u2", "TX-1", "cash", 7⟩ ⟨20250102, 1015⟩) =
      ⟨[⟨1, none, "TX-1", "card", 10, 20250101, 930⟩], 2⟩ :=
  C3_create_duplicate_conflict ⟨[⟨1, none, "TX-1", "card", 10, 20250101, 930⟩], 2⟩
    ⟨"u2", "TX-1", "cash", 7⟩ ⟨20250102, 1015⟩
    ⟨⟨1, none, "TX-1", "card", 10, 20250101, 930⟩, by simp, rfl⟩


/-- Helper: the service get-by-reference on a store where the repository
read returns `none` fails with 404, provided the reference number passes
validation. -/
theorem service_get_none (db : DB) (ref : String) (href : pyStrip ref ≠ "")
    (h : TransactionRepository.get_by_reference_number db ref = none) :
    TransactionService.get_transaction_by_reference_number db ref =
      .error ⟨404, "Transaction not found"⟩ := by
  simp only [TransactionService.get_transaction_by_reference_number,
    validate_ref_ok ref href, h]

/-- Claim C4: on a store holding the path reference number, an update whose
body carries a different reference number held by some stored record fails
with 400 (Conflict); an update whose body keeps the path reference number
skips the collision check and succeeds, overwriting payment method and
amount and re-stamping date and time. -/
theorem C4_update_collision_and_unchanged_ref (db : DB) (ref : String)
    (tu : TransactionModelCreate) (now : Clock)
    (hex : ∃ r ∈ db.records, r.reference_number = ref) :
    ((tu.reference_number ≠ ref →
      (∃ r ∈ db.records, r.reference_number = tu.reference_number) →
      TransactionRepository.update_by_reference_number db ref tu now =
        .error ⟨400, "New reference number already exists"⟩) ∧
    (tu.reference_number = ref →
      ∃ t db',
        TransactionRepository.update_by_reference_number db ref tu now =
          .ok (t, db') ∧
        t.reference_number = tu.reference_number ∧
        t.payment_method = tu.payment_method ∧ t.amount = tu.amount ∧
        t.date = now.date ∧ t.time = now.time)) := by
  obtain ⟨t0, hfind⟩ := Option.isSome_iff_exists.mp (find?_ref_isSome hex)
  constructor
  · intro hne hcol
    obtain ⟨r2, hfind2⟩ := Option.isSome_iff_exists.mp (find?_ref_isSome hcol)
    simp only [TransactionRepository.update_by_reference_number, hfind,
      if_pos hne, hfind2]
  · intro heq
    have hnn : ¬(tu.reference_number ≠ ref) := fun h => h heq
    refine ⟨⟨t0.id, t0.user_id, tu.reference_number, tu.payment_method,
        tu.amount, now.date, now.time⟩,
      ⟨replaceFirst ref ⟨t0.id, t0.user_id, tu.reference_number,
        tu.payment_method, tu.amount, now.date, now.time⟩ db.records,
        db.nextId⟩, ?_, rfl, rfl, rfl, rfl, rfl⟩
    simp only [TransactionRepository.update_by_reference_number, hfind,
      if_neg hnn]

/-- Witness for C4: a collision with a different record, and an unchanged
reference number, on a concrete two-record store. -/
theorem C4_witness :
    (TransactionRepository.update_by_reference_number ⟨[⟨1, none, "A", "card", 10, 1, 1⟩, ⟨2, none, "B", "cash", 5, 1, 2⟩], 3⟩ "A"
        ⟨"u", "B", "card", 10⟩ ⟨2, 2⟩ =
      .error ⟨400, "New reference number already exists"⟩) ∧
    (∃ t db',
      TransactionRepository.update_by_reference_number ⟨[⟨1, none, "A", "card", 10, 1, 1⟩, ⟨2, none, "B", "cash", 5, 1, 2⟩], 3⟩ "A"
          ⟨"u", "A", "cash", 20⟩ ⟨2, 2⟩ = .ok (t, db') ∧
      t.reference_number = "A" ∧ t.payment_method = "cash" ∧
      t.amount = 20 ∧ t.date = 2 ∧ t.time = 2) :=
  ⟨(C4_update_collision_and_unchanged_ref ⟨[⟨1, none, "A", "card", 10, 1, 1⟩, ⟨2, none, "B", "cash", 5, 1, 2⟩], 3⟩ "A" ⟨"u", "B", "card", 10⟩ ⟨2, 2⟩
      ⟨⟨1, none, "A", "card", 10, 1, 1⟩, by simp, rfl⟩).1 (by decide)
      ⟨⟨2, none, "B", "cash", 5, 1, 2⟩, by simp, rfl⟩,
   (C4_update_collision_and_unchanged_ref ⟨[⟨1, none, "A", "card", 10, 1, 1⟩, ⟨2, none, "B", "cash", 5, 1, 2⟩], 3⟩ "A" ⟨"u", "A", "cash", 20⟩ ⟨2, 2⟩
      ⟨⟨1, none, "A", "card", 10, 1, 1⟩, by simp, rfl⟩).2 rfl⟩

/-- Counterexample for C5: an input with non-positive amount but a blank
reference number fails with detail "Reference number is required", not
"Amount must be greater than zero" as the claim states for every such
input. -/
theorem C5_counterexample :
    (⟨"u", "", "card", 0⟩ : TransactionModelCreate).amount ≤ 0 ∧
    TransactionService.create_transaction ⟨[], 1⟩ ⟨"u", "", "card", 0⟩
        ⟨20250101, 930⟩ =
      .error ⟨400, "Reference number is required"⟩ ∧
    TransactionService.create_transaction ⟨[], 1⟩ ⟨"u", "", "card", 0⟩
        ⟨20250101, 930⟩ ≠
      .error ⟨400, "Amount must be greater than zero"⟩ := by
  refine ⟨by norm_num, rfl, ?_⟩
  intro h
  rw [show TransactionService.create_transaction ⟨[], 1⟩ ⟨"u", "", "card", 0⟩
      ⟨20250101, 930⟩ = .error ⟨400, "Reference number is required"⟩ from rfl] at h
  simp at h

/-- Claim C5 (amended): for every create or update input with amount <= 0
whose reference number and payment method are non-blank (and, for update,
a non-blank path reference number), the service fails with 400
"Amount must be greater than zero" before any repository call, leaving the
store untouched. -/
theorem C5_amended_nonpositive_amount (db : DB) (ref : String)
    (tc : TransactionModelCreate) (now : Clock)
    (h1 : pyStrip tc.reference_number ≠ "")
    (h2 : pyStrip tc.payment_method ≠ "")
    (hpath : pyStrip ref ≠ "") (hamt : tc.amount ≤ 0) :
    TransactionService.create_transaction db tc now =
      .error ⟨400, "Amount must be greater than zero"⟩ ∧
    postDB db (TransactionService.create_transaction db tc now) = db ∧
    TransactionService.update_transaction_by_reference_number db ref tc now =
      .error ⟨400, "Amount must be greater than zero"⟩ ∧
    postDB db
      (TransactionService.update_transaction_by_reference_number db ref tc now)
      = db := by
  have hv := validate_create_amount_error tc h1 h2 hamt
  have hc : TransactionService.create_transaction db tc now =
      .error ⟨400, "Amount must be greater than zero"⟩ := by
    unfold TransactionService.create_transaction
    rw [hv]
  have hu : TransactionService.update_transaction_by_reference_number
      db ref tc now = .error ⟨400, "Amount must be greater than zero"⟩ := by
    unfold TransactionService.update_transaction_by_reference_number
    rw [validate_ref_ok ref hpath, hv]
  exact ⟨hc, postDB_error db _ _ hc, hu, postDB_error db _ _ hu⟩

/-- Witness for C5 at amount -0.01. -/
theorem C5_witness :
    pyStrip "TX-9" ≠ "" ∧ pyStrip "card" ≠ "" ∧
    (Rat.divInt (-1) 100 : Rat) ≤ 0 ∧
    TransactionService.create_transaction ⟨[], 1⟩
        ⟨"u", "TX-9", "card", Rat.divInt (-1) 100⟩ ⟨20250101, 930⟩ =
      .error ⟨400, "Amount must be greater than zero"⟩ ∧
    TransactionService.update_transaction_by_reference_number ⟨[], 1⟩ "TX-9"
        ⟨"u", "TX-9", "card", Rat.divInt (-1) 100⟩ ⟨20250101, 930⟩ =
      .error ⟨400, "Amount must be greater than zero"⟩ := by
  have h := C5_amended_nonpositive_amount ⟨[], 1⟩ "TX-9"
    ⟨"u", "TX-9", "card", Rat.divInt (-1) 100⟩ ⟨20250101, 930⟩
    (by decide) (by decide) (by decide) (by decide)
  exact ⟨by decide, by decide, by decide, h.1, h.2.2.1⟩

/-- Claim C6: a create or update input whose reference number or payment
method is blank (empty or whitespace-only after stripping) fails with some
400 before invoking the repository, leaving the store untouched. -/
theorem C6_blank_fields_rejected (db : DB) (tc : TransactionModelCreate)
    (ref : String) (now : Clock)
    (hblank : pyStrip tc.reference_number = "" ∨ pyStrip tc.payment_method = "") :
    (∃ d, TransactionService.create_transaction db tc now = .error ⟨400, d⟩ ∧
      postDB db (TransactionService.create_transaction db tc now) = db) ∧
    (∃ d, TransactionService.update_transaction_by_reference_number
        db ref tc now = .error ⟨400, d⟩ ∧
      postDB db
        (TransactionService.update_transaction_by_reference_number db ref tc now)
        = db) := by
  obtain ⟨d, hd⟩ := validate_create_blank tc hblank
  constructor
  · have hc : TransactionService.create_transaction db tc now =
        .error ⟨400, d⟩ := by
      unfold TransactionService.create_transaction
      rw [hd]
    exact ⟨d, hc, postDB_error db _ _ hc⟩
  · by_cases hp : pyStrip ref = ""
    · have hvr : TransactionService.validate_reference_number ref =
          .error ⟨400, "Reference number is required"⟩ := by
        unfold TransactionService.validate_reference_number
        rw [if_pos (Or.inr hp)]
      have hu : TransactionService.update_transaction_by_reference_number
          db ref tc now = .error ⟨400, "Reference number is required"⟩ := by
        unfold TransactionService.update_transaction_by_reference_number
        rw [hvr]
      exact ⟨_, hu, postDB_error db _ _ hu⟩
    · have hu : TransactionService.update_transaction_by_reference_number
          db ref tc now = .error ⟨400, d⟩ := by
        unfold TransactionService.update_transaction_by_reference_number
        rw [validate_ref_ok ref hp, hd]
      exact ⟨d, hu, postDB_error db _ _ hu⟩

/-- Witness for C6 at a whitespace-only reference number. -/
theorem C6_witness :
    pyStrip "   " = "" ∧
    (∃ d, TransactionService.create_transaction ⟨[], 1⟩
        ⟨"u", "   ", "card", 5⟩ ⟨20250101, 930⟩ = .error ⟨400, d⟩ ∧
      postDB ⟨[], 1⟩ (TransactionService.create_transaction ⟨[], 1⟩
        ⟨"u", "   ", "card", 5⟩ ⟨20250101, 930⟩) = ⟨[], 1⟩) ∧
    (∃ d, TransactionService.update_transaction_by_reference_number ⟨[], 1⟩
        "TX-1" ⟨"u", "   ", "card", 5⟩ ⟨20250101, 930⟩ = .error ⟨400, d⟩ ∧
      postDB ⟨[], 1⟩ (TransactionService.update_transaction_by_reference_number
        ⟨[], 1⟩ "TX-1" ⟨"u", "   ", "card", 5⟩ ⟨20250101, 930⟩) = ⟨[], 1⟩) := by
  have h := C6_blank_fields_rejected ⟨[], 1⟩ ⟨"u", "   ", "card", 5⟩ "TX-1"
    ⟨20250101, 930⟩ (Or.inl (by decide))
  exact ⟨by decide, h.1, h.2⟩

/-- Counterexample for C7: id 0 matches no stored record and the
repository read returns `none`, but the service answers 400
"Invalid transaction ID", not the 404 the claim states for every id with
no matching record. -/
theorem C7_counterexample :
    TransactionRepository.get_by_id ⟨[], 1⟩ 0 = none ∧
    TransactionService.get_transaction_by_id ⟨[], 1⟩ 0 =
      .error ⟨400, "Invalid transaction ID"⟩ ∧
    TransactionService.get_transaction_by_id ⟨[], 1⟩ 0 ≠
      .error ⟨404, "Transaction not found"⟩ := by
  refine ⟨rfl, rfl, ?_⟩
  intro h
  rw [show TransactionService.get_transaction_by_id ⟨[], 1⟩ 0 =
    .error ⟨400, "Invalid transaction ID"⟩ from rfl] at h
  simp at h

/-- Claim C7 (amended): for every positive id and every non-blank
reference number with no matching stored record, the repository reads
return the `None` sentinel without failing, and the service maps that to
404 "Transaction not found". -/
theorem C7_amended_missing_reads (db : DB) (i : Int) (ref : String)
    (hi : 0 < i) (hnoid : ∀ r ∈ db.records, (r.id : Int) ≠ i)
    (href : pyStrip ref ≠ "")
    (hnoref : ∀ r ∈ db.records, r.reference_number ≠ ref) :
    TransactionRepository.get_by_id db i = none ∧
    TransactionRepository.get_by_reference_number db ref = none ∧
    TransactionService.get_transaction_by_id db i =
      .error ⟨404, "Transaction not found"⟩ ∧
    TransactionService.get_transaction_by_reference_number db ref =
      .error ⟨404, "Transaction not found"⟩ := by
  have hid : TransactionRepository.get_by_id db i = none := by
    unfold TransactionRepository.get_by_id
    rw [List.find?_eq_none]
    intro r hr
    simpa using hnoid r hr
  have hrf : TransactionRepository.get_by_reference_number db ref = none := by
    unfold TransactionRepository.get_by_reference_number
    exact find?_ref_eq_none hnoref
  refine ⟨hid, hrf, ?_, ?_⟩
  · have hv : TransactionService.validate_transaction_id i = .ok () := by
      unfold TransactionService.validate_transaction_id
      rw [if_neg (not_le.mpr hi)]
    simp only [TransactionService.get_transaction_by_id, hv, hid]
  · simp only [TransactionService.get_transaction_by_reference_number,
      validate_ref_ok ref href, hrf]

/-- Witness for C7 on a concrete store missing id 5 and reference
"TX-9". -/
theorem C7_witness :
    (0 : Int) < 5 ∧ pyStrip "TX-9" ≠ "" ∧
    (TransactionRepository.get_by_id ⟨[⟨1, none, "TX-1", "card", 10, 1, 1⟩], 2⟩ 5 = none ∧
     TransactionRepository.get_by_reference_number
        ⟨[⟨1, none, "TX-1", "card", 10, 1, 1⟩], 2⟩ "TX-9" = none ∧
     TransactionService.get_transaction_by_id
        ⟨[⟨1, none, "TX-1", "card", 10, 1, 1⟩], 2⟩ 5 =
       .error ⟨404, "Transaction not found"⟩ ∧
     TransactionService.get_transaction_by_reference_number
        ⟨[⟨1, none, "TX-1", "card", 10, 1, 1⟩], 2⟩ "TX-9" =
       .error ⟨404, "Transaction not found"⟩) :=
  ⟨by decide, by decide,
   C7_amended_missing_reads ⟨[⟨1, none, "TX-1", "card", 10, 1, 1⟩], 2⟩ 5 "TX-9"
     (by decide) (by intro r hr; simp at hr; subst hr; decide)
     (by decide) (by intro r hr; simp at hr; subst hr; decide)⟩

/-- Claim C8: under the uniqueness invariant, after a successful delete of
reference number ref, a subsequent repository get of ref returns `none`
and the service get fails with 404; deleting an absent ref fails with 404
and leaves the store unchanged. -/
theorem C8_delete_then_get (db : DB) (ref : String) :
    (RefsDistinct db → pyStrip ref ≠ "" →
      ∀ b db',
        TransactionRepository.delete_by_reference_number db ref = .ok (b, db') →
        TransactionRepository.get_by_reference_number db' ref = none ∧
        TransactionService.get_transaction_by_reference_number db' ref =
          .error ⟨404, "Transaction not found"⟩) ∧
    ((∀ r ∈ db.records, r.reference_number ≠ ref) →
      TransactionRepository.delete_by_reference_number db ref =
        .error ⟨404, "Transaction not found"⟩ ∧
      postDB db (TransactionRepository.delete_by_reference_number db ref) = db) := by
  constructor
  · intro hnd href b db' hdel
    unfold TransactionRepository.delete_by_reference_number at hdel
    cases hfind : db.records.find? (fun r => r.reference_number == ref) with
    | none => rw [hfind] at hdel; cases hdel
    | some t0 =>
      rw [hfind] at hdel
      cases hdel
      have hrf : TransactionRepository.get_by_reference_number
          ⟨db.records.eraseP (fun r => r.reference_number == ref), db.nextId⟩
          ref = none :=
        find?_eraseP_ref db.records ref hnd
      exact ⟨hrf, service_get_none _ ref href hrf⟩
  · intro hnone
    have hmain : TransactionRepository.delete_by_reference_number db ref =
        .error ⟨404, "Transaction not found"⟩ := by
      unfold TransactionRepository.delete_by_reference_number
      rw [find?_ref_eq_none hnone]
    exact ⟨hmain, postDB_error db _ _ hmain⟩

/-- Witness for C8: deleting the only record, then reading it back; and a
delete of an absent reference number. -/
theorem C8_witness :
    (TransactionRepository.get_by_reference_number ⟨[], 2⟩ "TX-1" = none ∧
     TransactionService.get_transaction_by_reference_number ⟨[], 2⟩ "TX-1" =
       .error ⟨404, "Transaction not found"⟩) ∧
    (TransactionRepository.delete_by_reference_number ⟨[], 1⟩ "TX-9" =
       .error ⟨404, "Transaction not found"⟩ ∧
     postDB ⟨[], 1⟩ (TransactionRepository.delete_by_reference_number ⟨[], 1⟩ "TX-9") = ⟨[], 1⟩) :=
  ⟨(C8_delete_then_get ⟨[⟨1, none, "TX-1", "card", 10, 1, 1⟩], 2⟩ "TX-1").1
     (by simp [RefsDistinct]) (by decide) true ⟨[], 2⟩ rfl,
   (C8_delete_then_get ⟨[], 1⟩ "TX-9").2 (by intro r hr; cases hr)⟩

/-- Claim C9: the repository delete either raises or returns `True`, never
`False`, so the service's 500 branch for a falsy delete result is
unreachable and a returning repository call yields the success message
containing the reference number. -/
theorem C9_delete_never_false (db : DB) (ref : String) :
    (∀ b db',
      TransactionRepository.delete_by_reference_number db ref = .ok (b, db') →
      b = true) ∧
    (pyStrip ref ≠ "" →
      ∀ b db',
        TransactionRepository.delete_by_reference_number db ref = .ok (b, db') →
        TransactionService.delete_transaction_by_reference_number db ref =
          .ok ("Transaction with reference number " ++ ref ++
            " deleted successfully", db')) := by
  constructor
  · intro b db' hdel
    unfold TransactionRepository.delete_by_reference_number at hdel
    cases hfind : db.records.find? (fun r => r.reference_number == ref) with
    | none => rw [hfind] at hdel; cases hdel
    | some t0 =>
      rw [hfind] at hdel
      cases hdel
      rfl
  · intro href b db' hdel
    have hb : b = true := by
      unfold TransactionRepository.delete_by_reference_number at hdel
      cases hfind : db.records.find? (fun r => r.reference_number == ref) with
      | none => rw [hfind] at hdel; cases hdel
      | some t0 => rw [hfind] at hdel; cases hdel; rfl
    subst hb
    simp only [TransactionService.delete_transaction_by_reference_number,
      validate_ref_ok ref href, hdel, if_pos]

/-- Witness for C9 on a concrete one-record store. -/
theorem C9_witness :
    pyStrip "TX-1" ≠ "" ∧
    TransactionService.delete_transaction_by_reference_number
        ⟨[⟨1, none, "TX-1", "card", 10, 1, 1⟩], 2⟩ "TX-1" =
      .ok ("Transaction with reference number TX-1 deleted successfully",
        ⟨[], 2⟩) :=
  ⟨by decide,
   (C9_delete_never_false ⟨[⟨1, none, "TX-1", "card", 10, 1, 1⟩], 2⟩ "TX-1").2
     (by decide) true ⟨[], 2⟩ rfl⟩

/-- Claim C10: when update-by-reference fails with 404 (record absent) or
with 400 (new reference number collides with another record), the failure
is raised before any field assignment and the store is exactly as before
the call. -/
theorem C10_update_atomic_on_error (db : DB) (ref : String)
    (tu : TransactionModelCreate) (now : Clock) :
    ((∀ r ∈ db.records, r.reference_number ≠ ref) →
      TransactionRepository.update_by_reference_number db ref tu now =
        .error ⟨404, "Transaction not found"⟩ ∧
      postDB db (TransactionRepository.update_by_reference_number db ref tu now)
        = db) ∧
    ((∃ r ∈ db.records, r.reference_number = ref) →
      tu.reference_number ≠ ref →
      (∃ r ∈ db.records, r.reference_number = tu.reference_number) →
      TransactionRepository.update_by_reference_number db ref tu now =
        .error ⟨400, "New reference number already exists"⟩ ∧
      postDB db (TransactionRepository.update_by_reference_number db ref tu now)
        = db) := by
  constructor
  · intro hnone
    have hmain : TransactionRepository.update_by_reference_number db ref tu now =
        .error ⟨404, "Transaction not found"⟩ := by
      unfold TransactionRepository.update_by_reference_number
      rw [find?_ref_eq_none hnone]
    exact ⟨hmain, postDB_error db _ _ hmain⟩
  · intro hex hne hcol
    obtain ⟨t0, hfind⟩ := Option.isSome_iff_exists.mp (find?_ref_isSome hex)
    obtain ⟨r2, hfind2⟩ := Option.isSome_iff_exists.mp (find?_ref_isSome hcol)
    have hmain : TransactionRepository.update_by_reference_number db ref tu now =
        .error ⟨400, "New reference number already exists"⟩ := by
      simp only [TransactionRepository.update_by_reference_number, hfind,
        if_pos hne, hfind2]
    exact ⟨hmain, postDB_error db _ _ hmain⟩

/-- Witness for C10: a 404 on the empty store and a collision on a
two-record store, both leaving the store unchanged. -/
theorem C10_witness :
    (TransactionRepository.update_by_reference_number ⟨[], 1⟩ "TX-9"
        ⟨"u", "TX-9", "card", 5⟩ ⟨2, 2⟩ =
      .error ⟨404, "Transaction not found"⟩ ∧
     postDB ⟨[], 1⟩ (TransactionRepository.update_by_reference_number ⟨[], 1⟩
        "TX-9" ⟨"u", "TX-9", "card", 5⟩ ⟨2, 2⟩) = ⟨[], 1⟩) ∧
    (TransactionRepository.update_by_reference_number
        ⟨[⟨1, none, "A", "card", 10, 1, 1⟩, ⟨2, none, "B", "cash", 5, 1, 2⟩], 3⟩
        "A" ⟨"u", "B", "card", 10⟩ ⟨2, 2⟩ =
      .error ⟨400, "New reference number already exists"⟩ ∧
     postDB ⟨[⟨1, none, "A", "card", 10, 1, 1⟩, ⟨2, none, "B", "cash", 5, 1, 2⟩], 3⟩
        (TransactionRepository.update_by_reference_number
          ⟨[⟨1, none, "A", "card", 10, 1, 1⟩, ⟨2, none, "B", "cash", 5, 1, 2⟩], 3⟩
          "A" ⟨"u", "B", "card", 10⟩ ⟨2, 2⟩) =
      ⟨[⟨1, none, "A", "card", 10, 1, 1⟩, ⟨2, none, "B", "cash", 5, 1, 2⟩], 3⟩) :=
  ⟨(C10_update_atomic_on_error ⟨[], 1⟩ "TX-9" ⟨"u", "TX-9", "card", 5⟩ ⟨2, 2⟩).1
     (by intro r hr; cases hr),
   (C10_update_atomic_on_error
      ⟨[⟨1, none, "A", "card", 10, 1, 1⟩, ⟨2, none, "B", "cash", 5, 1, 2⟩], 3⟩
      "A" ⟨"u", "B", "card", 10⟩ ⟨2, 2⟩).2
     ⟨⟨1, none, "A", "card", 10, 1, 1⟩, by simp, rfl⟩ (by decide)
     ⟨⟨2, none, "B", "cash", 5, 1, 2⟩, by simp, rfl⟩⟩

end AuditTable
